import Mathlib

/-!
Verification of the stateless session-token subsystem of `humus-terra`
(`src/tokens.rs`, `src/encrypt.rs`, `src/error.rs`, `src/response.rs`).

Modelling conventions:
* Rust functions that can return `Err` or panic are modelled by `RRes`,
  a result type with an explicit `panicked` outcome; the repository's
  `Error` struct is just a message string, so errors are `String`s.
* External crates (`aes_gcm`, `base64`, `sha3`, `serde_json`, UTF-8
  conversion) are modelled as an explicit record of functions
  (`Externals`); the repository's code is parametric in them, and their
  round-trip contracts appear as hypotheses of the theorems that need
  them.
* The process-global `CONFIG` cell (`lazy_static` + `RwLock<Option<TokenConfig>>`)
  is modelled by an explicit `Option TokenConfig` argument.
* Randomness (`rand::random` token nonces, `Aes256Gcm::generate_nonce`)
  and the clock (`Utc::now`) are modelled as explicit arguments.
* `chrono` `DateTime<Utc>` values built by `DateTime::from_timestamp(secs, 0)`
  are represented by their second count (an `Int`); comparison and
  `signed_duration_since` on such values coincide with `Int` comparison
  and subtraction.
-/

/-- Outcome of a Rust computation: `Ok`, `Err` (with the `Error` message
string), or a panic (`unwrap` on `None`, out-of-bounds `split_at`, ...). -/
inductive RRes (α : Type) where
  | ok : α → RRes α
  | err : String → RRes α
  | panicked : RRes α
deriving DecidableEq

/-- Byte strings are lists of byte values. -/
abbrev Bytes := List Nat

/-- The JSON payload struct `Token { who, timestamp, nonce }` of `tokens.rs`. -/
structure Token where
  who : String
  timestamp : Int
  nonce : Int
deriving DecidableEq

/-- The external crates used by `encrypt.rs` and `tokens.rs`, as abstract
functions: SHA3-256 (`sha3`), the AES-256-GCM core (`aes_gcm`), base64
(`base64`), UTF-8 byte conversion, and JSON (de)serialization of `Token`
(`serde_json`).  Fallible operations return `Except String` carrying the
library error's display string (the code wraps it via `Error::from`). -/
structure Externals where
  digest : String → Bytes
  aeadEnc : Bytes → Bytes → Bytes → Except String Bytes
  aeadDec : Bytes → Bytes → Bytes → Except String Bytes
  b64encode : Bytes → String
  b64decode : String → Except String Bytes
  utf8Bytes : String → Bytes
  utf8String : Bytes → Except String String
  jsonToString : Token → String
  jsonFromStr : String → Except String Token

/-- `static AES_NONCE_SIZE: usize = 12` (`encrypt.rs`). -/
def aesNonceSize : Nat := 12

/-- `Aes::encrypt` (`encrypt.rs` lines 18-31): hash the key, AEAD-encrypt
under a fresh 12-byte nonce (here an explicit argument), prepend the nonce
and base64-encode. -/
def Aes.encrypt (E : Externals) (nonce : Bytes) (plaintext key : String) : RRes String :=
  let keyHash := E.digest key
  match E.aeadEnc keyHash nonce (E.utf8Bytes plaintext) with
  | .error e => .err e
  | .ok ciphertext => .ok (E.b64encode (nonce ++ ciphertext))

/-- `Aes::decrypt` (`encrypt.rs` lines 33-46): base64-decode (propagating
the decode error), then `split_at(AES_NONCE_SIZE)` — which, as in Rust,
panics when the decoded data is shorter than 12 bytes — then AEAD-decrypt
and re-read the plaintext as UTF-8. -/
def Aes.decrypt (E : Externals) (data key : String) : RRes String :=
  match E.b64decode data with
  | .error e => .err e
  | .ok ciphertext =>
    let keyHash := E.digest key
    if ciphertext.length < aesNonceSize then .panicked
    else
      let nonceArr := ciphertext.take aesNonceSize
      let cipheredData := ciphertext.drop aesNonceSize
      match E.aeadDec keyHash nonceArr cipheredData with
      | .error e => .err e
      | .ok plaintext =>
        match E.utf8String plaintext with
        | .error e => .err e
        | .ok s => .ok s

/-- `TokenConfig` (`tokens.rs` lines 29-32). -/
structure TokenConfig where
  key : String
  secure_cookie : Bool
deriving DecidableEq

/-- `Token::new` (`tokens.rs` lines 74-80); the random nonce is an
explicit argument. -/
def Token.new (who : String) (timestamp nonce : Int) : Token :=
  { who := who, timestamp := timestamp, nonce := nonce }

/-- `Token::from` (`tokens.rs` lines 82-92): fail when the global
configuration is unset, otherwise decrypt and JSON-parse. -/
def Token.fromEncrypted (E : Externals) (cfg : Option TokenConfig) (encrypted : String) :
    RRes Token :=
  match cfg with
  | none => .err "Token system not configured"
  | some c =>
    match Aes.decrypt E encrypted c.key with
    | .err e => .err e
    | .panicked => .panicked
    | .ok decrypted =>
      match E.jsonFromStr decrypted with
      | .error e => .err e
      | .ok t => .ok t

/-- `Token::to_string` (`tokens.rs` lines 94-104): fail when the global
configuration is unset, otherwise JSON-serialize and encrypt (the cipher
nonce is an explicit argument). -/
def Token.to_string (E : Externals) (cfg : Option TokenConfig) (nonce : Bytes) (t : Token) :
    RRes String :=
  match cfg with
  | none => .err "Token system not configured"
  | some c => Aes.encrypt E nonce (E.jsonToString t) c.key

/-- Lower bound of `chrono`'s representable timestamps
(`NaiveDateTime::MIN`, about year -262144).  Modelled from the `chrono`
documentation: `DateTime::from_timestamp` returns `None` outside this
range.  The theorems below depend only on ordinary timestamps lying
inside the range and on `i64::MAX` lying far outside it. -/
def chronoMinTimestamp : Int := -8334632851200

/-- Upper bound of `chrono`'s representable timestamps
(`NaiveDateTime::MAX`, about year 262142).  See `chronoMinTimestamp`. -/
def chronoMaxTimestamp : Int := 8210266876799

/-- `chrono` `DateTime::from_timestamp(secs, nsecs)`: `Some` exactly when
the instant is representable.  The resulting `DateTime<Utc>` is
represented by its second count. -/
def fromTimestamp (secs : Int) (nsecs : Nat) : Option Int :=
  if chronoMinTimestamp ≤ secs ∧ secs ≤ chronoMaxTimestamp ∧ nsecs < 2000000000
  then some secs else none

/-- `chrono` `DateTime::signed_duration_since`: the difference of the two
instants, in seconds (nanoseconds are always zero here). -/
def signedDurationSince (a b : Int) : Int := a - b

/-- `chrono` `TimeDelta::num_days`: whole days, truncated toward zero
(Rust `i64` division). -/
def numDays (secs : Int) : Int := Int.tdiv secs 86400

/-- `chrono` `TimeDelta::num_minutes`: whole minutes, truncated toward
zero (Rust `i64` division). -/
def numMinutes (secs : Int) : Int := Int.tdiv secs 60

/-- `AccessToken` (`tokens.rs` lines 62-64). -/
structure AccessToken where
  inner : Token
deriving DecidableEq

/-- `RefreshToken` (`tokens.rs` lines 69-71). -/
structure RefreshToken where
  inner : Token
deriving DecidableEq

/-- `AccessToken::new` (`tokens.rs` lines 108-112). -/
def AccessToken.new (who : String) (timestamp nonce : Int) : AccessToken :=
  ⟨Token.new who timestamp nonce⟩

/-- `AccessToken::from` (`tokens.rs` lines 114-118). -/
def AccessToken.fromEncrypted (E : Externals) (cfg : Option TokenConfig) (encrypted : String) :
    RRes AccessToken :=
  match Token.fromEncrypted E cfg encrypted with
  | .ok t => .ok ⟨t⟩
  | .err e => .err e
  | .panicked => .panicked

/-- `AccessToken::to_string` (`tokens.rs` lines 120-122). -/
def AccessToken.to_string (E : Externals) (cfg : Option TokenConfig) (nonce : Bytes)
    (t : AccessToken) : RRes String :=
  Token.to_string E cfg nonce t.inner

/-- `AccessToken::who` (`tokens.rs` lines 127-129). -/
def AccessToken.who (t : AccessToken) : String := t.inner.who

/-- `AccessToken::timestamp` (`tokens.rs` lines 134-136):
`DateTime::from_timestamp(self.inner.timestamp, 0).unwrap()` — panics
when the stored timestamp is outside `chrono`'s range. -/
def AccessToken.timestamp (t : AccessToken) : RRes Int :=
  match fromTimestamp t.inner.timestamp 0 with
  | some d => .ok d
  | none => .panicked

/-- `RefreshToken::new` (`tokens.rs` lines 140-144). -/
def RefreshToken.new (who : String) (timestamp nonce : Int) : RefreshToken :=
  ⟨Token.new who timestamp nonce⟩

/-- `RefreshToken::from` (`tokens.rs` lines 146-150). -/
def RefreshToken.fromEncrypted (E : Externals) (cfg : Option TokenConfig) (encrypted : String) :
    RRes RefreshToken :=
  match Token.fromEncrypted E cfg encrypted with
  | .ok t => .ok ⟨t⟩
  | .err e => .err e
  | .panicked => .panicked

/-- `RefreshToken::to_string` (`tokens.rs` lines 152-154). -/
def RefreshToken.to_string (E : Externals) (cfg : Option TokenConfig) (nonce : Bytes)
    (t : RefreshToken) : RRes String :=
  Token.to_string E cfg nonce t.inner

/-- `RefreshToken::who` (`tokens.rs` lines 159-161). -/
def RefreshToken.who (t : RefreshToken) : String := t.inner.who

/-- `RefreshToken::timestamp` (`tokens.rs` lines 166-168): also an
`unwrap` that panics outside `chrono`'s range. -/
def RefreshToken.timestamp (t : RefreshToken) : RRes Int :=
  match fromTimestamp t.inner.timestamp 0 with
  | some d => .ok d
  | none => .panicked

/-- `Session` (`tokens.rs` lines 175-178). -/
structure Session where
  access_token : AccessToken
  refresh_token : RefreshToken
deriving DecidableEq

/-- The inbound request, reduced to what `Session::read_cookie` observes:
the cookie name/value pairs. -/
structure Request where
  cookies : List (String × String)

/-- Cookie lookup by name, as `cookie.get(key)` does. -/
def lookupCookie (key : String) : List (String × String) → Option String
  | [] => none
  | (k, v) :: rest => if k = key then some v else lookupCookie key rest

/-- `Session::read_cookie` (`tokens.rs` lines 181-184). -/
def Session.read_cookie (key : String) (req : Request) : Option String :=
  lookupCookie key req.cookies

/-- `Session::new` (`tokens.rs` lines 189-196): both credentials stamped
with the same `Utc::now().timestamp()` (an explicit argument), with
explicit random token nonces. -/
def Session.new (who : String) (now nA nR : Int) : Session :=
  { access_token := AccessToken.new who now nA,
    refresh_token := RefreshToken.new who now nR }

/-- `Session::from_request` (`tokens.rs` lines 201-237), with the clock
(`now`) and the nonces a rotation would draw (`nA`, `nR`) explicit.
Checks, in source order: missing cookies; decode of each credential;
owner equality; causality (`refresh.timestamp() > access.timestamp()`,
both `unwrap`ped `DateTime`s); refresh expiry via
`refresh.timestamp().signed_duration_since(now).num_days() > 90`;
sliding rotation via
`access.timestamp().signed_duration_since(now).num_minutes() > 15`. -/
def Session.from_request (E : Externals) (cfg : Option TokenConfig) (now nA nR : Int)
    (req : Request) : RRes Session :=
  match Session.read_cookie "__HT_ACCESS_TOKEN" req with
  | none => .err "Missing access token"
  | some access_token_str =>
  match AccessToken.fromEncrypted E cfg access_token_str with
  | .err e => .err e
  | .panicked => .panicked
  | .ok access_token =>
  match Session.read_cookie "__HT_REFRESH_TOKEN" req with
  | none => .err "Missing refresh token"
  | some refresh_token_str =>
  match RefreshToken.fromEncrypted E cfg refresh_token_str with
  | .err e => .err e
  | .panicked => .panicked
  | .ok refresh_token =>
  if access_token.who ≠ refresh_token.who then .err "Token owner mismatched"
  else
  match refresh_token.timestamp with
  | .err e => .err e
  | .panicked => .panicked
  | .ok rts =>
  match access_token.timestamp with
  | .err e => .err e
  | .panicked => .panicked
  | .ok ats =>
  if rts > ats then .err "Refresh token reused"
  else if numDays (signedDurationSince rts now) > 90 then .err "Refresh token expired"
  else if numMinutes (signedDurationSince ats now) > 15 then
    let timestamp := now
    let access2 := AccessToken.new access_token.who timestamp nA
    .ok { access_token := access2,
          refresh_token := RefreshToken.new access2.who timestamp nR }
  else
    .ok { access_token := access_token, refresh_token := refresh_token }

/-- `ResponseConfig` (`response.rs` lines 20-29). -/
structure ResponseConfig where
  access_control_allow_origin : Option String
  access_control_allow_methods : Option String
  access_control_allow_headers : Option String

/-- An outbound cookie as built by
`CookieBuilder::new(name, value).http_only(..).secure(..)`. -/
structure CookieRec where
  name : String
  value : String
  http_only : Bool
  secure : Bool
deriving DecidableEq

/-- The hyper response `Builder`, reduced to what `ResponseBuilder` and
`Session::to_response` write into it: plain (CORS) headers and
`Set-Cookie` headers. -/
structure RespBuilder where
  corsHeaders : List (String × String)
  setCookies : List CookieRec
deriving DecidableEq

/-- `header(SET_COOKIE, cookie)`: hyper's `Builder::header` appends. -/
def RespBuilder.addCookie (b : RespBuilder) (c : CookieRec) : RespBuilder :=
  { b with setCookies := b.setCookies ++ [c] }

/-- `ResponseBuilder::new` (`response.rs` lines 61-77): start from an
empty builder and add each configured CORS header; no cookie is written
here. -/
def ResponseBuilder.new (rc : ResponseConfig) : RespBuilder :=
  { corsHeaders :=
      (match rc.access_control_allow_origin with
       | some o => [("access-control-allow-origin", o)]
       | none => []) ++
      (match rc.access_control_allow_methods with
       | some m => [("access-control-allow-methods", m)]
       | none => []) ++
      (match rc.access_control_allow_headers with
       | some h => [("access-control-allow-headers", h)]
       | none => []),
    setCookies := [] }

/-- `Session::to_response` (`tokens.rs` lines 242-250):
`CONFIG.blocking_read().as_ref().unwrap().secure_cookie` — a panic when
the configuration is unset — then two `Set-Cookie` headers, each
`http_only(true)` and `secure(secure)`; each credential is serialized via
`to_string` (cipher nonces explicit). -/
def Session.to_response (E : Externals) (cfg : Option TokenConfig) (rc : ResponseConfig)
    (nA nR : Bytes) (s : Session) : RRes RespBuilder :=
  match cfg with
  | none => .panicked
  | some c =>
    let secure := c.secure_cookie
    match s.access_token.to_string E cfg nA with
    | .err e => .err e
    | .panicked => .panicked
    | .ok aStr =>
      match s.refresh_token.to_string E cfg nR with
      | .err e => .err e
      | .panicked => .panicked
      | .ok rStr =>
        .ok (((ResponseBuilder.new rc).addCookie
                { name := "__HT_ACCESS_TOKEN", value := aStr,
                  http_only := true, secure := secure }).addCookie
                { name := "__HT_REFRESH_TOKEN", value := rStr,
                  http_only := true, secure := secure })

/-! ## Helper lemmas and concrete test instances -/

theorem fromTimestamp_some {s : Int} {n : Nat} {d : Int}
    (h : fromTimestamp s n = some d) : d = s := by
  unfold fromTimestamp at h
  split at h
  · exact (Option.some.inj h).symm
  · exact absurd h (by simp)

theorem accessTimestamp_ok {t : AccessToken} {d : Int}
    (h : AccessToken.timestamp t = .ok d) : d = t.inner.timestamp := by
  unfold AccessToken.timestamp at h
  rcases hf : fromTimestamp t.inner.timestamp 0 with _ | x <;> rw [hf] at h
  · exact RRes.noConfusion h
  · cases h
    exact fromTimestamp_some hf

theorem refreshTimestamp_ok {t : RefreshToken} {d : Int}
    (h : RefreshToken.timestamp t = .ok d) : d = t.inner.timestamp := by
  unfold RefreshToken.timestamp at h
  rcases hf : fromTimestamp t.inner.timestamp 0 with _ | x <;> rw [hf] at h
  · exact RRes.noConfusion h
  · cases h
    exact fromTimestamp_some hf

/-- Character codes of a string, the byte view used by the test instances. -/
def strBytes (s : String) : Bytes := s.toList.map Char.toNat

/-- String rebuilt from character codes, inverse of `strBytes` on small codes. -/
def bytesStr (bs : Bytes) : String := String.mk (bs.map Char.ofNat)

/-- A concrete `Externals` instance for exercising the code on closed
inputs: the AEAD core passes bytes through, base64 is the character-code
view (declared to fail on the designated input "!"), and JSON parsing is
the supplied finite map.  The token/session logic under scrutiny is
independent of these choices. -/
def testExt (json : String → Except String Token) : Externals where
  digest _ := List.replicate 32 0
  aeadEnc _ _ p := .ok p
  aeadDec _ _ c := .ok c
  b64encode := bytesStr
  b64decode s := if s = "!" then .error "Invalid byte 33, offset 0." else .ok (strBytes s)
  utf8Bytes := strBytes
  utf8String bs := .ok (bytesStr bs)
  jsonToString t := t.who
  jsonFromStr := json

/-- A JSON map that parses nothing. -/
def jsonErr (_ : String) : Except String Token := .error "malformed"

/-- A request carrying both credential cookies; under `testExt` the access
envelope decrypts to the string "a" and the refresh envelope to "r". -/
def reqTwo : Request :=
  ⟨[("__HT_ACCESS_TOKEN", "AAAAAAAAAAAAa"), ("__HT_REFRESH_TOKEN", "AAAAAAAAAAAAr")]⟩

/-! ## Claim theorems -/

/-- Tokens parsed by the C1 scenario: both credentials owned by "u" and
stamped 91 days (7862400 seconds) before the test instant 864000000. -/
def jsonC1 (s : String) : Except String Token :=
  if s = "a" then .ok ⟨"u", 856137600, 1⟩
  else if s = "r" then .ok ⟨"u", 856137600, 2⟩
  else .error "malformed"

/-- C1: the spec demands `RefreshExpired` once `now - refresh.timestamp()`
exceeds 90 days, but `from_request` computes
`refresh.timestamp().signed_duration_since(now)` — that is,
`refresh - now`, which is negative for any past-stamped credential — so
the expiry branch never fires for stale credentials.  Concretely, a
consistent pair stamped 91 days before "now" is accepted unchanged
instead of failing with `RefreshExpired`. -/
theorem from_request_accepts_91_day_old_refresh :
    Session.from_request (testExt jsonC1) (some ⟨"k", false⟩) 864000000 0 0 reqTwo =
      .ok ⟨⟨⟨"u", 856137600, 1⟩⟩, ⟨⟨"u", 856137600, 2⟩⟩⟩ := by
  decide

/-- Tokens parsed by the C2 scenario: both credentials owned by "u" and
stamped 16 minutes (960 seconds) before the test instant 864000000. -/
def jsonC2 (s : String) : Except String Token :=
  if s = "a" then .ok ⟨"u", 863999040, 1⟩
  else if s = "r" then .ok ⟨"u", 863999040, 2⟩
  else .error "malformed"

/-- C2: the spec demands a freshly minted pair stamped at "now" once
`now - access.timestamp()` exceeds 15 minutes, but `from_request`
computes `access.timestamp().signed_duration_since(now)` — negative for
any past-stamped credential — so the rotation branch never fires for
stale access credentials.  Concretely, a pair stamped 16 minutes before
"now" is returned unchanged (old timestamps, old nonces) instead of
being rotated. -/
theorem from_request_no_rotation_16_minute_old_access :
    Session.from_request (testExt jsonC2) (some ⟨"k", false⟩) 864000000 0 0 reqTwo =
      .ok ⟨⟨⟨"u", 863999040, 1⟩⟩, ⟨⟨"u", 863999040, 2⟩⟩⟩ := by
  decide

/-- C3: `Aes::decrypt` propagates a base64 decoding failure as an `Err`,
as the spec says; but when base64 decoding succeeds with fewer than 12
bytes, `split_at(AES_NONCE_SIZE)` panics instead of returning the
`DecodeError` the spec demands for undersized envelopes. -/
theorem decrypt_short_input_panics (E : Externals) (data key : String) :
    (∀ e, E.b64decode data = .error e → Aes.decrypt E data key = .err e) ∧
    (∀ bs, E.b64decode data = .ok bs → bs.length < aesNonceSize →
      Aes.decrypt E data key = .panicked) := by
  constructor
  · intro e he
    unfold Aes.decrypt
    simp only [he]
  · intro bs hbs hlen
    unfold Aes.decrypt
    simp only [hbs]
    rw [if_pos hlen]

/-- Witness for `decrypt_short_input_panics`: under the concrete test
instance, the input "!" fails base64 decoding and yields an `Err`, while
"AAAA" decodes to 4 bytes and makes `Aes::decrypt` panic. -/
theorem decrypt_short_input_panics_w :
    Aes.decrypt (testExt jsonErr) "!" "k" = .err "Invalid byte 33, offset 0." ∧
    Aes.decrypt (testExt jsonErr) "AAAA" "k" = .panicked :=
  ⟨(decrypt_short_input_panics (testExt jsonErr) "!" "k").1
      "Invalid byte 33, offset 0." (by rfl),
    (decrypt_short_input_panics (testExt jsonErr) "AAAA" "k").2
      (strBytes "AAAA") (by rfl) (by decide)⟩

/-- C4: with the configuration never set, token decode (`Token::from`)
and token encode (`Token::to_string`) do return the not-configured
error, but `Session::to_response` panics on
`CONFIG.blocking_read().as_ref().unwrap()` instead of returning the
`NotConfigured` error the spec demands. -/
theorem unconfigured_calls_behavior :
    Token.fromEncrypted (testExt jsonErr) none "x" = .err "Token system not configured" ∧
    Token.to_string (testExt jsonErr) none (List.replicate 12 0) ⟨"u", 0, 0⟩ =
      .err "Token system not configured" ∧
    Session.to_response (testExt jsonErr) none ⟨none, none, none⟩ (List.replicate 12 0)
      (List.replicate 12 0) ⟨⟨⟨"u", 0, 0⟩⟩, ⟨⟨"u", 0, 0⟩⟩⟩ = .panicked := by
  refine ⟨by decide, by decide, by decide⟩

/-- C5: with both credentials decodable and owned by the same subject, a
refresh credential stamped strictly later than the access credential is
rejected as `Refresh token reused` (the causality / anti-replay check of
`Session::from_request`).  This covers the replay of a stale access
credential from an earlier issue (`access@t0`) together with a rotated
refresh credential (`refresh@t1`, `t1 > t0`). -/
theorem from_request_refresh_reused
    (E : Externals) (cfg : Option TokenConfig) (now nA nR : Int) (req : Request)
    (astr rstr w : String) (ta tr na nr : Int)
    (hA : Session.read_cookie "__HT_ACCESS_TOKEN" req = some astr)
    (hR : Session.read_cookie "__HT_REFRESH_TOKEN" req = some rstr)
    (hdA : AccessToken.fromEncrypted E cfg astr = .ok ⟨⟨w, ta, na⟩⟩)
    (hdR : RefreshToken.fromEncrypted E cfg rstr = .ok ⟨⟨w, tr, nr⟩⟩)
    (hvA : fromTimestamp ta 0 = some ta)
    (hvR : fromTimestamp tr 0 = some tr)
    (hgt : tr > ta) :
    Session.from_request E cfg now nA nR req = .err "Refresh token reused" := by
  unfold Session.from_request
  simp only [hA, hdA, hR, hdR, AccessToken.who, RefreshToken.who,
    AccessToken.timestamp, RefreshToken.timestamp, hvA, hvR]
  simp [hgt]

/-- Tokens parsed by the C5 scenario: access stamped at 100, refresh (for
the same owner) stamped later, at 200. -/
def jsonC5 (s : String) : Except String Token :=
  if s = "a" then .ok ⟨"u", 100, 1⟩
  else if s = "r" then .ok ⟨"u", 200, 2⟩
  else .error "malformed"

/-- Witness for `from_request_refresh_reused` at a concrete request. -/
theorem from_request_refresh_reused_w :
    Session.from_request (testExt jsonC5) (some ⟨"k", false⟩) 1000 0 0 reqTwo =
      .err "Refresh token reused" :=
  from_request_refresh_reused (testExt jsonC5) (some ⟨"k", false⟩) 1000 0 0 reqTwo
    "AAAAAAAAAAAAa" "AAAAAAAAAAAAr" "u" 100 200 1 2 (by decide) (by decide) (by decide)
    (by decide) (by decide) (by decide) (by decide)

/-- C6: with both credentials decodable but owned by different subjects,
`Session::from_request` is rejected as `Token owner mismatched`; the
owner check precedes every timestamp access, so no other hypothesis is
needed. -/
theorem from_request_owner_mismatch
    (E : Externals) (cfg : Option TokenConfig) (now nA nR : Int) (req : Request)
    (astr rstr w1 w2 : String) (ta tr na nr : Int)
    (hA : Session.read_cookie "__HT_ACCESS_TOKEN" req = some astr)
    (hR : Session.read_cookie "__HT_REFRESH_TOKEN" req = some rstr)
    (hdA : AccessToken.fromEncrypted E cfg astr = .ok ⟨⟨w1, ta, na⟩⟩)
    (hdR : RefreshToken.fromEncrypted E cfg rstr = .ok ⟨⟨w2, tr, nr⟩⟩)
    (hne : w1 ≠ w2) :
    Session.from_request E cfg now nA nR req = .err "Token owner mismatched" := by
  unfold Session.from_request
  simp only [hA, hdA, hR, hdR, AccessToken.who, RefreshToken.who]
  rw [if_pos hne]

/-- Tokens parsed by the C6 scenario: access for "alice", refresh for
"bob", equal timestamps. -/
def jsonC6 (s : String) : Except String Token :=
  if s = "a" then .ok ⟨"alice", 100, 1⟩
  else if s = "r" then .ok ⟨"bob", 100, 2⟩
  else .error "malformed"

/-- Witness for `from_request_owner_mismatch` at a concrete request. -/
theorem from_request_owner_mismatch_w :
    Session.from_request (testExt jsonC6) (some ⟨"k", false⟩) 1000 0 0 reqTwo =
      .err "Token owner mismatched" :=
  from_request_owner_mismatch (testExt jsonC6) (some ⟨"k", false⟩) 1000 0 0 reqTwo
    "AAAAAAAAAAAAa" "AAAAAAAAAAAAr" "alice" "bob" 100 100 1 2 (by decide) (by decide)
    (by decide) (by decide) (by decide)

/-- C7: for every subject `w`, timestamp `ts`, and key `k` (configuration
set to `k`), decoding the encoding of `Token::new(w, ts)` round-trips on
the `who` and `timestamp` fields.  The hypotheses are exactly the
round-trip contracts of the external crates (AES-GCM, base64, UTF-8,
serde_json), instantiated at the values this computation feeds them, plus
the fact that the generated cipher nonce is 12 bytes long. -/
theorem token_roundtrip (E : Externals) (k : String) (secure : Bool) (w : String) (ts n : Int)
    (nonce12 ct : Bytes)
    (hlen : nonce12.length = aesNonceSize)
    (henc : E.aeadEnc (E.digest k) nonce12 (E.utf8Bytes (E.jsonToString ⟨w, ts, n⟩)) = .ok ct)
    (hb64 : E.b64decode (E.b64encode (nonce12 ++ ct)) = .ok (nonce12 ++ ct))
    (hdec : E.aeadDec (E.digest k) nonce12 ct = .ok (E.utf8Bytes (E.jsonToString ⟨w, ts, n⟩)))
    (hutf : E.utf8String (E.utf8Bytes (E.jsonToString ⟨w, ts, n⟩)) =
      .ok (E.jsonToString ⟨w, ts, n⟩))
    (hjson : E.jsonFromStr (E.jsonToString ⟨w, ts, n⟩) = .ok ⟨w, ts, n⟩) :
    ∃ envelope, Token.to_string E (some ⟨k, secure⟩) nonce12 (Token.new w ts n) = .ok envelope ∧
      ∃ t, Token.fromEncrypted E (some ⟨k, secure⟩) envelope = .ok t ∧
        t.who = w ∧ t.timestamp = ts := by
  refine ⟨E.b64encode (nonce12 ++ ct), ?_, ⟨w, ts, n⟩, ?_, rfl, rfl⟩
  · unfold Token.to_string Aes.encrypt Token.new
    simp only [henc]
  · unfold Token.fromEncrypted Aes.decrypt
    simp only [hb64]
    rw [if_neg (by simp only [List.length_append, hlen, aesNonceSize]; omega)]
    rw [← hlen, List.take_left, List.drop_left]
    simp only [hdec, hutf, hjson]

/-- Token parsed by the C7 scenario: the serialized form of
`⟨"w", 5, 7⟩` under `testExt` is the string "w". -/
def jsonC7 (s : String) : Except String Token :=
  if s = "w" then .ok ⟨"w", 5, 7⟩ else .error "malformed"

/-- Witness for `token_roundtrip` at a concrete subject, timestamp, key
and test instance. -/
theorem token_roundtrip_w :
    ∃ envelope, Token.to_string (testExt jsonC7) (some ⟨"k", false⟩) (List.replicate 12 65)
        (Token.new "w" 5 7) = .ok envelope ∧
      ∃ t, Token.fromEncrypted (testExt jsonC7) (some ⟨"k", false⟩) envelope = .ok t ∧
        t.who = "w" ∧ t.timestamp = 5 :=
  token_roundtrip (testExt jsonC7) "k" false "w" 5 7 (List.replicate 12 65) (strBytes "w")
    (by decide) (by rfl) (by rfl) (by rfl) (by rfl) (by rfl)

/-- Any session accepted by `from_request` has its refresh timestamp no
later than its access timestamp: the causality check rejects the
opposite ordering, and the rotation branch re-stamps both together. -/
theorem from_request_ok_pair_ordered
    (E : Externals) (cfg : Option TokenConfig) (now nA nR : Int) (req : Request)
    (s : Session) (h : Session.from_request E cfg now nA nR req = .ok s) :
    s.refresh_token.inner.timestamp ≤ s.access_token.inner.timestamp := by
  unfold Session.from_request at h
  rcases hc1 : Session.read_cookie "__HT_ACCESS_TOKEN" req with _ | astr <;>
    simp only [hc1] at h <;> try exact RRes.noConfusion h
  rcases hd1 : AccessToken.fromEncrypted E cfg astr with access_token | e | _ <;>
    simp only [hd1] at h <;> try exact RRes.noConfusion h
  rcases hc2 : Session.read_cookie "__HT_REFRESH_TOKEN" req with _ | rstr <;>
    simp only [hc2] at h <;> try exact RRes.noConfusion h
  rcases hd2 : RefreshToken.fromEncrypted E cfg rstr with refresh_token | e | _ <;>
    simp only [hd2] at h <;> try exact RRes.noConfusion h
  by_cases hw : access_token.who ≠ refresh_token.who
  · rw [if_pos hw] at h
    exact RRes.noConfusion h
  rw [if_neg hw] at h
  rcases ht2 : RefreshToken.timestamp refresh_token with rts | e | _ <;>
    simp only [ht2] at h <;> try exact RRes.noConfusion h
  rcases ht1 : AccessToken.timestamp access_token with ats | e | _ <;>
    simp only [ht1] at h <;> try exact RRes.noConfusion h
  by_cases hru : rts > ats
  · rw [if_pos hru] at h
    exact RRes.noConfusion h
  rw [if_neg hru] at h
  by_cases hex : numDays (signedDurationSince rts now) > 90
  · rw [if_pos hex] at h
    exact RRes.noConfusion h
  rw [if_neg hex] at h
  by_cases hrot : numMinutes (signedDurationSince ats now) > 15
  · rw [if_pos hrot] at h
    cases h
    simp [AccessToken.new, RefreshToken.new, Token.new]
  · rw [if_neg hrot] at h
    cases h
    have h1 := accessTimestamp_ok ht1
    have h2 := refreshTimestamp_ok ht2
    show refresh_token.inner.timestamp ≤ access_token.inner.timestamp
    omega

/-- C8: the pair invariant.  (1) `Session::new` stamps both credentials
with the same instant; (2) every session returned `Ok` by
`Session::from_request` has its access timestamp no earlier than its
refresh timestamp; (3) when the rotation branch fires (all checks
passing), the returned session is a freshly minted pair with both
credentials stamped at `now`, i.e. exactly `Session::new` of the same
owner at `now`. -/
theorem session_pair_invariant :
    (∀ (w : String) (now nA nR : Int),
        (Session.new w now nA nR).access_token.inner.timestamp = now ∧
        (Session.new w now nA nR).refresh_token.inner.timestamp = now) ∧
    (∀ (E : Externals) (cfg : Option TokenConfig) (now nA nR : Int) (req : Request)
        (s : Session), Session.from_request E cfg now nA nR req = .ok s →
        s.refresh_token.inner.timestamp ≤ s.access_token.inner.timestamp) ∧
    (∀ (E : Externals) (cfg : Option TokenConfig) (now nA nR : Int) (req : Request)
        (astr rstr w : String) (ta tr na nr : Int),
        Session.read_cookie "__HT_ACCESS_TOKEN" req = some astr →
        Session.read_cookie "__HT_REFRESH_TOKEN" req = some rstr →
        AccessToken.fromEncrypted E cfg astr = .ok ⟨⟨w, ta, na⟩⟩ →
        RefreshToken.fromEncrypted E cfg rstr = .ok ⟨⟨w, tr, nr⟩⟩ →
        fromTimestamp ta 0 = some ta →
        fromTimestamp tr 0 = some tr →
        ¬ tr > ta →
        ¬ numDays (signedDurationSince tr now) > 90 →
        numMinutes (signedDurationSince ta now) > 15 →
        Session.from_request E cfg now nA nR req = .ok (Session.new w now nA nR)) := by
  refine ⟨fun w now nA nR => ⟨rfl, rfl⟩,
    fun E cfg now nA nR req s h => from_request_ok_pair_ordered E cfg now nA nR req s h, ?_⟩
  intro E cfg now nA nR req astr rstr w ta tr na nr hA hR hdA hdR hvA hvR hru hex hrot
  unfold Session.from_request
  simp only [hA, hdA, hR, hdR, AccessToken.who, RefreshToken.who,
    AccessToken.timestamp, RefreshToken.timestamp, hvA, hvR]
  simp [hru, hex, hrot, Session.new, AccessToken.new, RefreshToken.new, Token.new]

/-- Tokens parsed by the C8 part-2 witness scenario: a consistent pair
both stamped at 100. -/
def jsonC8 (s : String) : Except String Token :=
  if s = "a" then .ok ⟨"u", 100, 2⟩
  else if s = "r" then .ok ⟨"u", 100, 3⟩
  else .error "malformed"

/-- Tokens parsed by the C8 part-3 witness scenario: an access credential
stamped 16 minutes after "now" (the only way the rotation branch fires,
see C2) with a refresh credential stamped at "now". -/
def jsonC8r (s : String) : Except String Token :=
  if s = "a" then .ok ⟨"u", 1060, 1⟩
  else if s = "r" then .ok ⟨"u", 100, 2⟩
  else .error "malformed"

/-- Witness for `session_pair_invariant`: each part applied at a concrete
input. -/
theorem session_pair_invariant_w :
    ((Session.new "u" 100 1 2).access_token.inner.timestamp = 100 ∧
      (Session.new "u" 100 1 2).refresh_token.inner.timestamp = 100) ∧
    ((⟨⟨⟨"u", 100, 2⟩⟩, ⟨⟨"u", 100, 3⟩⟩⟩ : Session).refresh_token.inner.timestamp ≤
      (⟨⟨⟨"u", 100, 2⟩⟩, ⟨⟨"u", 100, 3⟩⟩⟩ : Session).access_token.inner.timestamp) ∧
    Session.from_request (testExt jsonC8r) (some ⟨"k", false⟩) 100 3 4 reqTwo =
      .ok (Session.new "u" 100 3 4) :=
  ⟨session_pair_invariant.1 "u" 100 1 2,
    session_pair_invariant.2.1 (testExt jsonC8) (some ⟨"k", false⟩) 100 0 0 reqTwo
      ⟨⟨⟨"u", 100, 2⟩⟩, ⟨⟨"u", 100, 3⟩⟩⟩ (by decide),
    session_pair_invariant.2.2 (testExt jsonC8r) (some ⟨"k", false⟩) 100 3 4 reqTwo
      "AAAAAAAAAAAAa" "AAAAAAAAAAAAr" "u" 1060 100 1 2 (by decide) (by decide) (by decide)
      (by decide) (by decide) (by decide) (by decide) (by decide) (by decide)⟩

/-- C9: every successful `Session::to_response` on a configured system
writes exactly two `Set-Cookie` fields, named `__HT_ACCESS_TOKEN` and
`__HT_REFRESH_TOKEN`, each with `HttpOnly` set, and with `Secure` equal
to (hence set if and only if) the configuration's `secure_cookie` flag. -/
theorem to_response_two_cookies (E : Externals) (c : TokenConfig) (rc : ResponseConfig)
    (nA nR : Bytes) (s : Session) (b : RespBuilder)
    (h : Session.to_response E (some c) rc nA nR s = .ok b) :
    ∃ aStr rStr, b.setCookies =
      [⟨"__HT_ACCESS_TOKEN", aStr, true, c.secure_cookie⟩,
       ⟨"__HT_REFRESH_TOKEN", rStr, true, c.secure_cookie⟩] := by
  unfold Session.to_response at h
  rcases h1 : AccessToken.to_string E (some c) nA s.access_token with aStr | e | _ <;>
    simp only [h1] at h <;> try exact RRes.noConfusion h
  rcases h2 : RefreshToken.to_string E (some c) nR s.refresh_token with rStr | e | _ <;>
    simp only [h2] at h <;> try exact RRes.noConfusion h
  cases h
  exact ⟨aStr, rStr, rfl⟩

/-- C10: `AccessToken::timestamp` and `RefreshToken::timestamp` call
`DateTime::from_timestamp(..., 0).unwrap()`, which panics whenever the
stored `timestamp` field lies outside `chrono`'s representable range; and
`Session::from_request`, which calls them on every decoded pair (after
the owner check), therefore panics when a validly decrypted refresh
credential carries the JSON timestamp `i64::MAX`. -/
theorem timestamp_unwrap_panics :
    (∀ t : AccessToken,
        ¬ (chronoMinTimestamp ≤ t.inner.timestamp ∧ t.inner.timestamp ≤ chronoMaxTimestamp) →
        AccessToken.timestamp t = .panicked) ∧
    (∀ t : RefreshToken,
        ¬ (chronoMinTimestamp ≤ t.inner.timestamp ∧ t.inner.timestamp ≤ chronoMaxTimestamp) →
        RefreshToken.timestamp t = .panicked) ∧
    (∀ (E : Externals) (cfg : Option TokenConfig) (now nA nR : Int) (req : Request)
        (astr rstr w : String) (ta na nr : Int),
        Session.read_cookie "__HT_ACCESS_TOKEN" req = some astr →
        Session.read_cookie "__HT_REFRESH_TOKEN" req = some rstr →
        AccessToken.fromEncrypted E cfg astr = .ok ⟨⟨w, ta, na⟩⟩ →
        RefreshToken.fromEncrypted E cfg rstr = .ok ⟨⟨w, 9223372036854775807, nr⟩⟩ →
        Session.from_request E cfg now nA nR req = .panicked) := by
  refine ⟨?_, ?_, ?_⟩
  · intro t ht
    unfold AccessToken.timestamp fromTimestamp
    rw [if_neg (by tauto)]
  · intro t ht
    unfold RefreshToken.timestamp fromTimestamp
    rw [if_neg (by tauto)]
  · intro E cfg now nA nR req astr rstr w ta na nr hA hR hdA hdR
    have hp : RefreshToken.timestamp ⟨⟨w, 9223372036854775807, nr⟩⟩ = .panicked := by
      unfold RefreshToken.timestamp fromTimestamp
      dsimp only
      rw [if_neg (by decide)]
    unfold Session.from_request
    simp only [hA, hdA, hR, hdR, AccessToken.who, RefreshToken.who, hp]
    simp

/-- An empty CORS configuration for the C9 witness. -/
def rcNone : ResponseConfig := ⟨none, none, none⟩

/-- The response builder produced by the C9 witness scenario. -/
def bC9 : RespBuilder :=
  ⟨[], [⟨"__HT_ACCESS_TOKEN", "AAAAAAAAAAAAu", true, true⟩,
        ⟨"__HT_REFRESH_TOKEN", "AAAAAAAAAAAAu", true, true⟩]⟩

/-- Witness for `to_response_two_cookies` at a concrete configured
session, with the secure-cookie flag on. -/
theorem to_response_two_cookies_w :
    ∃ aStr rStr, bC9.setCookies =
      [⟨"__HT_ACCESS_TOKEN", aStr, true, (⟨"k", true⟩ : TokenConfig).secure_cookie⟩,
       ⟨"__HT_REFRESH_TOKEN", rStr, true, (⟨"k", true⟩ : TokenConfig).secure_cookie⟩] :=
  to_response_two_cookies (testExt jsonErr) ⟨"k", true⟩ rcNone (List.replicate 12 65)
    (List.replicate 12 65) ⟨⟨⟨"u", 0, 0⟩⟩, ⟨⟨"u", 0, 0⟩⟩⟩ bC9 (by decide)

/-- Tokens parsed by the C10 scenario: a decodable pair whose refresh
credential carries the JSON timestamp `i64::MAX`. -/
def jsonC10 (s : String) : Except String Token :=
  if s = "a" then .ok ⟨"u", 100, 1⟩
  else if s = "r" then .ok ⟨"u", 9223372036854775807, 2⟩
  else .error "malformed"

/-- Witness for `timestamp_unwrap_panics`: each part applied at the
concrete timestamp `i64::MAX`. -/
theorem timestamp_unwrap_panics_w :
    AccessToken.timestamp ⟨⟨"u", 9223372036854775807, 0⟩⟩ = .panicked ∧
    RefreshToken.timestamp ⟨⟨"u", 9223372036854775807, 0⟩⟩ = .panicked ∧
    Session.from_request (testExt jsonC10) (some ⟨"k", false⟩) 100 0 0 reqTwo = .panicked :=
  ⟨timestamp_unwrap_panics.1 ⟨⟨"u", 9223372036854775807, 0⟩⟩ (by decide),
    timestamp_unwrap_panics.2.1 ⟨⟨"u", 9223372036854775807, 0⟩⟩ (by decide),
    timestamp_unwrap_panics.2.2 (testExt jsonC10) (some ⟨"k", false⟩) 100 0 0 reqTwo
      "AAAAAAAAAAAAa" "AAAAAAAAAAAAr" "u" 100 1 2 (by decide) (by decide) (by decide)
      (by decide)⟩
